import Mathlib

/-!
Verification of the doh-server core (`src/main.rs`) against its
natural-language specification.

The repository ships only `src/main.rs`; the modules `constants`, `dns`,
`errors`, `globals` and `utils` it uses are not in the sources, so their
interfaces are modelled from the specification (each such definition says
so in its doc comment).  Everything else is a direct shallow embedding of
the Rust code: byte buffers become `List Nat`, fallible operations become
`Except`, and the network is an explicit environment of outcomes plus a
trace of attempted I/O events.
-/

namespace DoH

/-- Modelled from the spec: `constants::MIN_DNS_PACKET_LEN` is absent from
the sources; §3 of the spec fixes the minimum wire length as the 12-byte
header plus one. -/
def MIN_DNS_PACKET_LEN : Nat := 13

/-- Modelled from the spec: `constants::MAX_DNS_QUESTION_LEN` is absent
from the sources; the spec names "a maximum query size" without fixing a
value, so a concrete representative is chosen. -/
def MAX_DNS_QUESTION_LEN : Nat := 512

/-- Modelled from the spec: `constants::MAX_DNS_RESPONSE_LEN` is absent
from the sources; it is the size of the UDP receive buffer and the EDNS0
payload advertisement. -/
def MAX_DNS_RESPONSE_LEN : Nat := 4096

/-- Modelled from the spec: `constants::BLOCK_SIZE` is absent from the
sources; the spec names "a fixed block size" for response padding without
fixing a value, so a concrete representative is chosen. -/
def BLOCK_SIZE : Nat := 128

/-- Modelled from the spec: `constants::DNS_QUERY_PARAM` is absent from
the sources; the spec fixes the GET query parameter name as `dns`. -/
def DNS_QUERY_PARAM : String := "dns"

/-- The closed error taxonomy of `errors::DoHError` (spec §7). -/
inductive DoHError where
  | Incomplete
  | TooLarge
  | Io
  | UpstreamIssue
deriving Repr, DecidableEq

/-- Modelled from the spec: the `StatusCode::from(DoHError)` conversion
lives in the absent `errors` module; spec §7 maps `Incomplete` to 400,
`TooLarge` to 413, `Io` to 502 and `UpstreamIssue` to 502. -/
def statusOf : DoHError → Nat
  | .Incomplete => 400
  | .TooLarge => 413
  | .Io => 502
  | .UpstreamIssue => 502

/-- Socket addresses are only compared for equality; an abstract index
suffices. -/
abbrev SockAddr := Nat

/-- The configuration fields of `globals::Globals` that the request path
reads, together with the collaborator functions of the absent `dns`
module (`set_edns_max_payload_size`, `is_recoverable_error`, `min_ttl`),
kept abstract as function-valued fields so that the orchestration in
`main.rs` is verified for every behaviour of those collaborators. -/
structure Globals where
  path : String
  disable_post : Bool
  server_address : SockAddr
  min_ttl : Nat
  max_ttl : Nat
  err_ttl : Nat
  setEdns : List Nat → List Nat
  isRecoverableError : List Nat → Bool
  minTtl : List Nat → Nat → Nat → Nat → Except Unit Nat

/-- Outcomes the environment supplies for the three UDP operations of one
`proxy` call: binding the ephemeral socket, sending the query, receiving
one datagram (payload bytes and source address). -/
structure Net where
  bindResult : Except Unit Unit
  sendResult : Except Unit Unit
  recvResult : Except Unit (List Nat × SockAddr)

/-- Trace of network operations `proxy` attempted, in order. -/
inductive NetEvent where
  | bind
  | send (data : List Nat) (addr : SockAddr)
  | recv
deriving Repr, DecidableEq

/-- The HTTP response assembled on the success path of `proxy`. -/
structure Resp where
  status : Nat
  contentLength : Nat
  contentType : String
  xPadding : String
  cacheControl : String
  body : List Nat
deriving Repr, DecidableEq

/-- Modelled from the spec: `utils::padding_string` is absent from the
sources; spec §4.4/§6 sizes the padding so the total response size rounds
up to the next multiple of the block size, i.e. `blockSize - inputSize %
blockSize` filler characters. -/
def padding_string (inputSize blockSize : Nat) : String :=
  String.mk (List.replicate (blockSize - inputSize % blockSize) ' ')

/-- The TTL selection of `main.rs` lines 231–238: a recoverable error uses
the configured error TTL, otherwise `dns::min_ttl` decides (its failure is
surfaced by `proxy` as `UpstreamIssue`). -/
def computeTtl (g : Globals) (packet : List Nat) : Except Unit Nat :=
  if g.isRecoverableError packet then .ok g.err_ttl
  else g.minTtl packet g.min_ttl g.max_ttl g.err_ttl

/-- Shallow embedding of `DoH::proxy` (`main.rs` lines 209–251).  The
result carries the trace of attempted network operations.  `recv_from`
into a `MAX_DNS_RESPONSE_LEN` buffer delivers at most that many bytes, so
the received length is `min data.length MAX_DNS_RESPONSE_LEN` and
`packet.truncate(len)` leaves exactly the first `len` datagram bytes. -/
def proxy (g : Globals) (net : Net) (query : List Nat) :
    Except DoHError Resp × List NetEvent :=
  if query.length < MIN_DNS_PACKET_LEN then (.error .Incomplete, [])
  else
    let q := g.setEdns query
    match net.bindResult with
    | .error _ => (.error .Io, [.bind])
    | .ok _ =>
      match net.sendResult with
      | .error _ => (.error .Io, [.bind, .send q g.server_address])
      | .ok _ =>
        let events := [NetEvent.bind, .send q g.server_address, .recv]
        match net.recvResult with
        | .error _ => (.error .Io, events)
        | .ok (data, addr) =>
          let len := min data.length MAX_DNS_RESPONSE_LEN
          if len < MIN_DNS_PACKET_LEN ∨ g.server_address ≠ addr then
            (.error .UpstreamIssue, events)
          else
            let packet := data.take MAX_DNS_RESPONSE_LEN
            match computeTtl g packet with
            | .error _ => (.error .UpstreamIssue, events)
            | .ok ttl =>
              (.ok { status := 200
                     contentLength := packet.length
                     contentType := "application/dns-message"
                     xPadding := padding_string packet.length BLOCK_SIZE
                     cacheControl := "max-age=" ++ toString ttl
                     body := packet }, events)

/-- The body-reading loop of `DoH::read_body_and_proxy` (`main.rs` lines
195–204): the body arrives as a list of chunk results (a transport error
or a byte chunk); after each chunk the running total is compared with
`MAX_DNS_QUESTION_LEN` (`sum_size >= MAX_DNS_QUESTION_LEN` aborts) and a
chunk-read error is mapped to `TooLarge`. -/
def read_body_loop : List (Except Unit (List Nat)) → Nat → List Nat →
    Except DoHError (List Nat)
  | [], _, query => .ok query
  | chunk :: rest, sum_size, query =>
    match chunk with
    | .error _ => .error .TooLarge
    | .ok c =>
      let sum_size := sum_size + c.length
      if MAX_DNS_QUESTION_LEN ≤ sum_size then .error .TooLarge
      else read_body_loop rest sum_size (query ++ c)

/-- Shallow embedding of `DoH::read_body_and_proxy` (`main.rs` lines
194–207): stream the body, then hand the accumulated query to `proxy`. -/
def read_body_and_proxy (g : Globals) (net : Net)
    (body : List (Except Unit (List Nat))) :
    Except DoHError Resp × List NetEvent :=
  match read_body_loop body 0 [] with
  | .error e => (.error e, [])
  | .ok query => proxy g net query

/-- Total byte length of the successfully delivered chunks of a body. -/
def bodyLen (body : List (Except Unit (List Nat))) : Nat :=
  (body.map (fun c => match c with | .ok l => l.length | .error _ => 0)).sum

/-- Concatenation of the successfully delivered chunks of a body. -/
def bodyBytes (body : List (Except Unit (List Nat))) : List Nat :=
  (body.map (fun c => match c with | .ok l => l | .error _ => [])).flatten

/-- HTTP methods as `main.rs` dispatches on them: GET, POST, or anything
else. -/
inductive Method where
  | GET
  | POST
  | other
deriving Repr, DecidableEq

/-- The parts of an inbound HTTP request that `DoH::call` reads: method,
path, raw query string (absent when the URI has none), and the raw bytes
of the `Content-Type` header (absent when the header is missing). -/
structure Request where
  method : Method
  path : String
  query : Option String
  contentType : Option (List Nat)

/-- `hyper`'s `HeaderValue::to_str`: succeeds exactly when every byte is
visible ASCII (or space), returning the corresponding string. -/
def headerValueToStr (bytes : List Nat) : Option String :=
  if bytes.all (fun b => 32 ≤ b ∧ b ≤ 126) then
    some (String.mk (bytes.map Char.ofNat))
  else none

/-- ASCII lowercasing, the effect of Rust's `str::to_lowercase` on the
ASCII strings `headerValueToStr` can produce. -/
def asciiLower (s : String) : String :=
  String.mk (s.data.map Char.toLower)

/-- Shallow embedding of `DoH::check_content_type` (`main.rs` lines
162–192): absent header → 406, undecodable value → 400, lowercased value
different from `application/dns-message` → 415, otherwise success. -/
def check_content_type (contentType : Option (List Nat)) :
    Except Nat Unit :=
  match contentType with
  | none => .error 406
  | some bytes =>
    match headerValueToStr bytes with
    | none => .error 400
    | some s =>
      if asciiLower s ≠ "application/dns-message" then .error 415
      else .ok ()

/-- The base64url alphabet of `base64::URL_SAFE_NO_PAD`. -/
def b64Val (c : Char) : Option Nat :=
  if 'A' ≤ c ∧ c ≤ 'Z' then some (c.toNat - 65)
  else if 'a' ≤ c ∧ c ≤ 'z' then some (c.toNat - 97 + 26)
  else if '0' ≤ c ∧ c ≤ '9' then some (c.toNat - 48 + 52)
  else if c = '-' then some 62
  else if c = '_' then some 63
  else none

/-- Byte assembly for base64 decoding: each full group of four sextets
yields three bytes; a trailing group of two or three sextets yields one or
two bytes. -/
def b64Bytes : List Nat → List Nat
  | a :: b :: c :: d :: rest =>
    (a * 4 + b / 16) :: ((b % 16) * 16 + c / 4) :: ((c % 4) * 64 + d) ::
      b64Bytes rest
  | [a, b] => [a * 4 + b / 16]
  | [a, b, c] => [a * 4 + b / 16, (b % 16) * 16 + c / 4]
  | _ => []

/-- `base64::decode_config(s, base64::URL_SAFE_NO_PAD)`: every character
must be in the base64url alphabet (`=` padding is rejected), a length
congruent to 1 mod 4 is invalid, and the sextets are packed into bytes. -/
def b64urlDecode (s : String) : Option (List Nat) :=
  if s.length % 4 = 1 then none
  else (s.data.mapM b64Val).map b64Bytes

/-- Rust's `str::split(sep)` on a character list: the empty string yields
one empty segment, and every separator occurrence starts a new segment. -/
def splitOnChar (sep : Char) : List Char → List (List Char)
  | [] => [[]]
  | c :: rest =>
    if c = sep then [] :: splitOnChar sep rest
    else
      match splitOnChar sep rest with
      | h :: t => (c :: h) :: t
      | [] => [[c]]

/-- The GET parameter scan of `main.rs` lines 119–127: the query string is
split on `&`; each part is split on every `=`; whenever the first segment
equals `DNS_QUERY_PARAM` the variable is overwritten with the second
segment (which is `none` when the part has no `=`). -/
def extractQuestionStr (query : String) : Option String :=
  ((splitOnChar '&' query.data).foldl
    (fun acc part =>
      match splitOnChar '=' part with
      | k :: rest => if k = DNS_QUERY_PARAM.data then rest.head? else acc
      | [] => acc)
    none).map String.mk

/-- Joins segments with `=`, undoing a split. -/
def joinEq : List (List Char) → List Char
  | [] => []
  | [x] => x
  | x :: xs => x ++ '=' :: joinEq xs

/-- The reading of a GET parameter the spec describes: split each pair on
the FIRST `=` only, the value being everything after it.  Stated from the
spec's words for comparison with `extractQuestionStr`, which embeds the
code. -/
def specQuestionStr (query : String) : Option String :=
  (splitOnChar '&' query.data).foldl
    (fun acc part =>
      match splitOnChar '=' part with
      | [_] => acc
      | k :: rest =>
        if k = DNS_QUERY_PARAM.data then some (String.mk (joinEq rest))
        else acc
      | [] => acc)
    none

/-- What `DoH::call` decides for a request before any upstream work: an
immediate response with a status, or entry into the POST body path, or
entry into the GET proxy path with the decoded question. -/
inductive CallResult where
  | respond (status : Nat)
  | post
  | get (question : List Nat)
deriving Repr, DecidableEq

/-- Shallow embedding of the routing in `DoH::call` (`main.rs` lines
85–158): path mismatch → 404; POST disabled → 405; POST content-type
check; GET parameter extraction and base64url decoding with failure 400;
any other method → 405. -/
def call (g : Globals) (req : Request) : CallResult :=
  if req.path ≠ g.path then .respond 404
  else
    match req.method with
    | .POST =>
      if g.disable_post then .respond 405
      else
        match check_content_type req.contentType with
        | .error s => .respond s
        | .ok _ => .post
    | .GET =>
      let query := req.query.getD ""
      match (extractQuestionStr query).bind b64urlDecode with
      | some question => .get question
      | none => .respond 400
    | .other => .respond 405

/-- Lifecycle of one accepted TCP connection in `DoH::entrypoint`
(`main.rs` lines 274–296): `start` before the counter is touched,
`counted admitted` between the atomic increment and the matching
decrement (`admitted` records whether the post-increment value passed the
`> max_clients` test), `done` after the single decrement — which happens
immediately on rejection, or after the serving task (normal completion,
error or timeout alike) otherwise. -/
inductive ConnPhase where
  | start
  | counted (admitted : Bool)
  | done
deriving Repr, DecidableEq

/-- The globally shared state of the governor: the live-connection counter
(modelled from the spec: `globals::ClientsCount` is absent from the
sources; its atomic `increment` returns the new value, `decrement` lowers
it by one) together with the phase of every connection. -/
structure GovState where
  counter : Nat
  conns : List ConnPhase
deriving Repr, DecidableEq

/-- A connection currently holding a unit of the counter. -/
def isCounted : ConnPhase → Bool
  | .counted _ => true
  | _ => false

/-- A connection currently admitted (counted and past the admission
test). -/
def isAdmitted : ConnPhase → Bool
  | .counted true => true
  | _ => false

/-- Connections currently holding a unit of the counter. -/
def countCounted (s : GovState) : Nat :=
  s.conns.countP isCounted

/-- Connections currently admitted. -/
def countAdmitted (s : GovState) : Nat :=
  s.conns.countP isAdmitted

/-- Start state: counter zero, `n` connections yet to be accepted. -/
def govInit (n : Nat) : GovState :=
  { counter := 0, conns := List.replicate n .start }

/-- Interleaved steps of the connection tasks of `DoH::entrypoint`: an
`accept` step performs the atomic increment and records the admission
decision `increment() > max_clients` taken on the returned value; a
`finish` step performs the single decrement of any counted connection —
the immediate decrement of a rejected one, or the end-of-task decrement
of an admitted one. -/
inductive GovStep (max : Nat) : GovState → GovState → Prop where
  | accept (c : Nat) (pre post : List ConnPhase) :
      GovStep max { counter := c, conns := pre ++ .start :: post }
        { counter := c + 1,
          conns := pre ++ .counted (decide (c + 1 ≤ max)) :: post }
  | finish (c : Nat) (b : Bool) (pre post : List ConnPhase) :
      GovStep max { counter := c, conns := pre ++ .counted b :: post }
        { counter := c - 1, conns := pre ++ .done :: post }

/-- States the governor can reach from `n` pending connections. -/
def GovReach (max n : Nat) (s : GovState) : Prop :=
  Relation.ReflTransGen (GovStep max) (govInit n) s

end DoH

open DoH

/-- Length of the spec-modelled padding string. -/
theorem padding_string_length (n b : Nat) :
    (padding_string n b).length = b - n % b := by
  simp [padding_string, String.length]

/-- C1: a query shorter than `MIN_DNS_PACKET_LEN` makes `proxy` return
`Incomplete` (mapped to HTTP 400) with an empty network trace: no socket
bound, nothing sent, nothing received. -/
theorem proxy_short_query_incomplete (g : Globals) (net : Net)
    (query : List Nat) (h : query.length < MIN_DNS_PACKET_LEN) :
    proxy g net query = (.error .Incomplete, []) ∧
      statusOf .Incomplete = 400 := by
  constructor
  · simp [proxy, h]
  · rfl

/-- C1 witness: a concrete 3-byte query on a concrete environment. -/
theorem proxy_short_query_incomplete_witness :
    proxy { path := "/dns-query", disable_post := false, server_address := 7,
            min_ttl := 10, max_ttl := 600, err_ttl := 2,
            setEdns := fun q => q, isRecoverableError := fun _ => false,
            minTtl := fun _ _ _ _ => .ok 60 }
          { bindResult := .ok (), sendResult := .ok (),
            recvResult := .ok ([0, 1, 2], 7) }
          [0, 1, 2]
      = (.error .Incomplete, []) ∧ statusOf .Incomplete = 400 :=
  proxy_short_query_incomplete _ _ _ (by decide)

/-- C2: once a datagram is received, a reply shorter than
`MIN_DNS_PACKET_LEN` or one whose source address differs from the
configured server address yields `UpstreamIssue`, whatever the reply
bytes; the trace shows exactly one send and one receive, so the datagram
is discarded with no retry and no second receive. -/
theorem proxy_bad_reply_upstream_issue (g : Globals) (net : Net)
    (query data : List Nat) (addr : SockAddr)
    (hq : ¬ query.length < MIN_DNS_PACKET_LEN)
    (hb : net.bindResult = .ok ()) (hs : net.sendResult = .ok ())
    (hr : net.recvResult = .ok (data, addr))
    (hbad : min data.length MAX_DNS_RESPONSE_LEN < MIN_DNS_PACKET_LEN ∨
      g.server_address ≠ addr) :
    proxy g net query =
      (.error .UpstreamIssue,
        [.bind, .send (g.setEdns query) g.server_address, .recv]) := by
  simp only [proxy, hq, if_false, hb, hs, hr, hbad, if_true]

/-- C2 witness: a 20-byte query answered from the wrong source address. -/
theorem proxy_bad_reply_upstream_issue_witness :
    ¬ (List.replicate 20 0).length < MIN_DNS_PACKET_LEN ∧
    (9 : SockAddr) ≠ 8 ∧
    proxy { path := "/dns-query", disable_post := false, server_address := 9,
            min_ttl := 10, max_ttl := 600, err_ttl := 2,
            setEdns := fun q => q, isRecoverableError := fun _ => false,
            minTtl := fun _ _ _ _ => .ok 60 }
          { bindResult := .ok (), sendResult := .ok (),
            recvResult := .ok (List.replicate 30 1, 8) }
          (List.replicate 20 0)
      = (.error .UpstreamIssue, [.bind, .send (List.replicate 20 0) 9, .recv]) :=
  ⟨by decide, by decide,
    proxy_bad_reply_upstream_issue _ _ _ _ _ (by decide) rfl rfl rfl
      (Or.inr (by decide))⟩

/-- C7: on a fully successful exchange the response has status 200,
`Content-Length` equal to the reply length, content type
`application/dns-message`, an `X-Padding` whose length lifts the total
size to the next multiple of `BLOCK_SIZE`, `Cache-Control` exactly
`max-age=<ttl>`, and a body equal to the received datagram truncated to
the received length. -/
theorem proxy_success_response (g : Globals) (net : Net)
    (query data : List Nat) (addr : SockAddr) (ttl : Nat)
    (hq : ¬ query.length < MIN_DNS_PACKET_LEN)
    (hb : net.bindResult = .ok ()) (hs : net.sendResult = .ok ())
    (hr : net.recvResult = .ok (data, addr))
    (hok : ¬ (min data.length MAX_DNS_RESPONSE_LEN < MIN_DNS_PACKET_LEN ∨
      g.server_address ≠ addr))
    (httl : computeTtl g (data.take MAX_DNS_RESPONSE_LEN) = .ok ttl) :
    (proxy g net query).1 =
      .ok { status := 200
            contentLength := (data.take MAX_DNS_RESPONSE_LEN).length
            contentType := "application/dns-message"
            xPadding := padding_string (data.take MAX_DNS_RESPONSE_LEN).length
              BLOCK_SIZE
            cacheControl := "max-age=" ++ toString ttl
            body := data.take MAX_DNS_RESPONSE_LEN } ∧
    ((data.take MAX_DNS_RESPONSE_LEN).length +
      (padding_string (data.take MAX_DNS_RESPONSE_LEN).length
        BLOCK_SIZE).length) % BLOCK_SIZE = 0 ∧
    0 < (padding_string (data.take MAX_DNS_RESPONSE_LEN).length
      BLOCK_SIZE).length ∧
    (padding_string (data.take MAX_DNS_RESPONSE_LEN).length
      BLOCK_SIZE).length ≤ BLOCK_SIZE := by
  have hpad := padding_string_length (data.take MAX_DNS_RESPONSE_LEN).length
    BLOCK_SIZE
  refine ⟨?_, ?_, ?_, ?_⟩
  · simp only [proxy, hq, if_false, hb, hs, hr, hok, httl]
  · rw [hpad]; show (_ + (128 - _ % 128)) % 128 = 0; omega
  · rw [hpad]; show 0 < 128 - _ % 128; omega
  · rw [hpad]; show 128 - _ % 128 ≤ 128; omega

/-- C7 witness: a 20-byte reply from the right address, TTL 60; padding
lifts 20 bytes to the 128-byte block boundary. -/
theorem proxy_success_response_witness :
    (proxy { path := "/dns-query", disable_post := false, server_address := 9,
             min_ttl := 10, max_ttl := 600, err_ttl := 2,
             setEdns := fun q => q, isRecoverableError := fun _ => false,
             minTtl := fun _ _ _ _ => .ok 60 }
           { bindResult := .ok (), sendResult := .ok (),
             recvResult := .ok (List.replicate 20 1, 9) }
           (List.replicate 20 0)).1 =
      .ok { status := 200
            contentLength := ((List.replicate 20 1).take
              MAX_DNS_RESPONSE_LEN).length
            contentType := "application/dns-message"
            xPadding := padding_string ((List.replicate 20 1).take
              MAX_DNS_RESPONSE_LEN).length BLOCK_SIZE
            cacheControl := "max-age=" ++ toString 60
            body := (List.replicate 20 1).take MAX_DNS_RESPONSE_LEN } ∧
    (((List.replicate 20 1).take MAX_DNS_RESPONSE_LEN).length +
      (padding_string ((List.replicate 20 1).take MAX_DNS_RESPONSE_LEN).length
        BLOCK_SIZE).length) % BLOCK_SIZE = 0 ∧
    0 < (padding_string ((List.replicate 20 1).take
      MAX_DNS_RESPONSE_LEN).length BLOCK_SIZE).length ∧
    (padding_string ((List.replicate 20 1).take
      MAX_DNS_RESPONSE_LEN).length BLOCK_SIZE).length ≤ BLOCK_SIZE :=
  proxy_success_response _ _ _ _ _ _ (by decide) rfl rfl rfl (by decide) rfl

/-- C8: TTL selection on a validated reply.  If the reply is classified
recoverable, the TTL in `Cache-Control` is the configured error TTL and
the result does not depend on the `min_ttl` collaborator at all; otherwise
the collaborator decides: a parse failure turns the whole call into
`UpstreamIssue`, and a computed TTL `t` appears as `max-age=t`. -/
theorem proxy_ttl_selection (g : Globals) (net : Net)
    (query data : List Nat) (addr : SockAddr)
    (hq : ¬ query.length < MIN_DNS_PACKET_LEN)
    (hb : net.bindResult = .ok ()) (hs : net.sendResult = .ok ())
    (hr : net.recvResult = .ok (data, addr))
    (hok : ¬ (min data.length MAX_DNS_RESPONSE_LEN < MIN_DNS_PACKET_LEN ∨
      g.server_address ≠ addr)) :
    (g.isRecoverableError (data.take MAX_DNS_RESPONSE_LEN) = true →
      (∃ r, (proxy g net query).1 = .ok r ∧
        r.cacheControl = "max-age=" ++ toString g.err_ttl) ∧
      (∀ f, proxy { g with minTtl := f } net query = proxy g net query)) ∧
    (g.isRecoverableError (data.take MAX_DNS_RESPONSE_LEN) = false →
      (g.minTtl (data.take MAX_DNS_RESPONSE_LEN) g.min_ttl g.max_ttl g.err_ttl
          = .error () →
        (proxy g net query).1 = .error .UpstreamIssue) ∧
      (∀ t, g.minTtl (data.take MAX_DNS_RESPONSE_LEN) g.min_ttl g.max_ttl
          g.err_ttl = .ok t →
        ∃ r, (proxy g net query).1 = .ok r ∧
          r.cacheControl = "max-age=" ++ toString t)) := by
  constructor
  · intro hrec
    constructor
    · have heq : (proxy g net query).1 = .ok
          { status := 200
            contentLength := (data.take MAX_DNS_RESPONSE_LEN).length
            contentType := "application/dns-message"
            xPadding := padding_string (data.take MAX_DNS_RESPONSE_LEN).length
              BLOCK_SIZE
            cacheControl := "max-age=" ++ toString g.err_ttl
            body := data.take MAX_DNS_RESPONSE_LEN } := by
        simp only [proxy, hq, if_false, hb, hs, hr, hok, computeTtl, hrec,
          if_true]
      exact ⟨_, heq, rfl⟩
    · intro f
      simp only [proxy, hq, if_false, hb, hs, hr, hok, computeTtl, hrec,
        if_true]
  · intro hrec
    constructor
    · intro hfail
      simp only [proxy, hq, if_false, hb, hs, hr, hok, computeTtl, hrec,
        Bool.false_eq_true, if_false, hfail]
    · intro t hok2
      have heq : (proxy g net query).1 = .ok
          { status := 200
            contentLength := (data.take MAX_DNS_RESPONSE_LEN).length
            contentType := "application/dns-message"
            xPadding := padding_string (data.take MAX_DNS_RESPONSE_LEN).length
              BLOCK_SIZE
            cacheControl := "max-age=" ++ toString t
            body := data.take MAX_DNS_RESPONSE_LEN } := by
        simp only [proxy, hq, if_false, hb, hs, hr, hok, computeTtl, hrec,
          Bool.false_eq_true, if_false, hok2]
      exact ⟨_, heq, rfl⟩

/-- C8 witness: a recoverable reply uses the error TTL 2 independently of
the `min_ttl` collaborator, and with a non-recoverable classification the
collaborator result 60 is used. -/
theorem proxy_ttl_selection_witness :
    (∃ r, (proxy { path := "/d", disable_post := false, server_address := 9,
                   min_ttl := 10, max_ttl := 600, err_ttl := 2,
                   setEdns := fun q => q,
                   isRecoverableError := fun _ => true,
                   minTtl := fun _ _ _ _ => .ok 60 }
                 { bindResult := .ok (), sendResult := .ok (),
                   recvResult := .ok (List.replicate 20 1, 9) }
                 (List.replicate 20 0)).1 = .ok r ∧
      r.cacheControl = "max-age=" ++ toString 2) ∧
    (proxy { path := "/d", disable_post := false, server_address := 9,
             min_ttl := 10, max_ttl := 600, err_ttl := 2,
             setEdns := fun q => q,
             isRecoverableError := fun _ => true,
             minTtl := fun _ _ _ _ => .error () }
           { bindResult := .ok (), sendResult := .ok (),
             recvResult := .ok (List.replicate 20 1, 9) }
           (List.replicate 20 0) =
        proxy { path := "/d", disable_post := false, server_address := 9,
                min_ttl := 10, max_ttl := 600, err_ttl := 2,
                setEdns := fun q => q,
                isRecoverableError := fun _ => true,
                minTtl := fun _ _ _ _ => .ok 60 }
              { bindResult := .ok (), sendResult := .ok (),
                recvResult := .ok (List.replicate 20 1, 9) }
              (List.replicate 20 0)) := by
  have h := proxy_ttl_selection
    { path := "/d", disable_post := false, server_address := 9,
      min_ttl := 10, max_ttl := 600, err_ttl := 2,
      setEdns := fun q => q, isRecoverableError := fun _ => true,
      minTtl := fun _ _ _ _ => .ok 60 }
    { bindResult := .ok (), sendResult := .ok (),
      recvResult := .ok (List.replicate 20 1, 9) }
    (List.replicate 20 0) (List.replicate 20 1) 9
    (by decide) rfl rfl rfl (by decide)
  exact ⟨(h.1 rfl).1, (h.1 rfl).2 (fun _ _ _ _ => .error ())⟩

/-- Helper: any body containing a transport-error chunk makes the reading
loop fail with `TooLarge`, whatever was accumulated so far. -/
theorem read_body_loop_error_mem (body : List (Except Unit (List Nat)))
    (s : Nat) (q : List Nat) (h : Except.error () ∈ body) :
    read_body_loop body s q = .error .TooLarge := by
  induction body generalizing s q with
  | nil => cases h
  | cons c rest ih =>
    cases c with
    | error e => rfl
    | ok l =>
      have hr : Except.error () ∈ rest := by
        rcases List.mem_cons.mp h with h1 | h1
        · cases h1
        · exact h1
      simp only [read_body_loop]
      by_cases hle : MAX_DNS_QUESTION_LEN ≤ s + l.length
      · simp [hle]
      · simp only [if_neg hle]
        exact ih (s + l.length) (q ++ l) hr

/-- Helper: a body of successfully read chunks whose running total stays
strictly below `MAX_DNS_QUESTION_LEN` is accumulated in full. -/
theorem read_body_loop_ok (body : List (Except Unit (List Nat)))
    (s : Nat) (q : List Nat)
    (hok : ∀ c ∈ body, ∃ l, c = .ok l)
    (hlt : s + bodyLen body < MAX_DNS_QUESTION_LEN) :
    read_body_loop body s q = .ok (q ++ bodyBytes body) := by
  induction body generalizing s q with
  | nil => simp [read_body_loop, bodyBytes]
  | cons c rest ih =>
    obtain ⟨l, rfl⟩ := hok _ (List.mem_cons_self c rest)
    have hlen : bodyLen (Except.ok l :: rest) = l.length + bodyLen rest := by
      simp [bodyLen]
    rw [hlen] at hlt
    simp only [read_body_loop]
    have hnot : ¬ MAX_DNS_QUESTION_LEN ≤ s + l.length := by omega
    simp only [if_neg hnot]
    have hrest := ih (s + l.length) (q ++ l)
      (fun c hc => hok c (List.mem_cons_of_mem _ hc)) (by omega)
    rw [hrest]
    simp [bodyBytes, List.append_assoc]

/-- Helper: once the running total can only reach or pass
`MAX_DNS_QUESTION_LEN`, the loop aborts with `TooLarge` (an error chunk on
the way aborts with the same result). -/
theorem read_body_loop_too_large (body : List (Except Unit (List Nat)))
    (s : Nat) (q : List Nat) (hs : s < MAX_DNS_QUESTION_LEN)
    (hge : MAX_DNS_QUESTION_LEN ≤ s + bodyLen body) :
    read_body_loop body s q = .error .TooLarge := by
  induction body generalizing s q with
  | nil =>
    exfalso
    have hz : bodyLen ([] : List (Except Unit (List Nat))) = 0 := rfl
    omega
  | cons c rest ih =>
    cases c with
    | error e => rfl
    | ok l =>
      have hlen : bodyLen (Except.ok l :: rest) = l.length + bodyLen rest := by
        simp [bodyLen]
      rw [hlen] at hge
      simp only [read_body_loop]
      by_cases hle : MAX_DNS_QUESTION_LEN ≤ s + l.length
      · simp [hle]
      · simp only [if_neg hle]
        exact ih (s + l.length) (q ++ l) (by omega) (by omega)

/-- C10: a transport error while reading any chunk of the POST body makes
`read_body_and_proxy` return `TooLarge` — mapped to 413, not to `Io`'s
502 — no matter how many bytes were already received, and `proxy` is
never reached. -/
theorem read_body_transport_error_too_large (g : Globals) (net : Net)
    (body : List (Except Unit (List Nat))) (h : Except.error () ∈ body) :
    read_body_and_proxy g net body = (.error .TooLarge, []) ∧
      statusOf .TooLarge = 413 ∧ statusOf .Io = 502 := by
  refine ⟨?_, rfl, rfl⟩
  unfold read_body_and_proxy
  rw [read_body_loop_error_mem body 0 [] h]

/-- C10 witness: a body whose second chunk fails after three bytes were
received. -/
theorem read_body_transport_error_too_large_witness :
    read_body_and_proxy
        { path := "/dns-query", disable_post := false, server_address := 7,
          min_ttl := 10, max_ttl := 600, err_ttl := 2,
          setEdns := fun q => q, isRecoverableError := fun _ => false,
          minTtl := fun _ _ _ _ => .ok 60 }
        { bindResult := .ok (), sendResult := .ok (),
          recvResult := .ok (List.replicate 20 1, 7) }
        [.ok [1, 2, 3], .error ()]
      = (.error .TooLarge, []) ∧
      statusOf .TooLarge = 413 ∧ statusOf .Io = 502 :=
  read_body_transport_error_too_large _ _ _ (by simp)

/-- C5 counterexample: a body whose total size equals
`MAX_DNS_QUESTION_LEN` — so it does NOT exceed the maximum — is
nevertheless rejected with `TooLarge` and never forwarded to `proxy`,
because the code aborts when `sum_size >= MAX_DNS_QUESTION_LEN`, not only
when the total grows past it. -/
theorem read_body_at_max_rejected :
    bodyLen [Except.ok (List.replicate MAX_DNS_QUESTION_LEN 0)] =
      MAX_DNS_QUESTION_LEN ∧
    read_body_and_proxy
        { path := "/dns-query", disable_post := false, server_address := 7,
          min_ttl := 10, max_ttl := 600, err_ttl := 2,
          setEdns := fun q => q, isRecoverableError := fun _ => false,
          minTtl := fun _ _ _ _ => .ok 60 }
        { bindResult := .ok (), sendResult := .ok (),
          recvResult := .ok (List.replicate 20 1, 7) }
        [.ok (List.replicate MAX_DNS_QUESTION_LEN 0)]
      = (.error .TooLarge, []) := by
  constructor
  · simp [bodyLen]
  · unfold read_body_and_proxy
    rw [read_body_loop_too_large _ 0 [] (by decide) (by simp [bodyLen])]

/-- C5 (amended): the running total is checked after every chunk and the
request aborts with `TooLarge` (413) as soon as it reaches or passes
`MAX_DNS_QUESTION_LEN`; a fully delivered body whose total stays strictly
below the maximum is accepted and forwarded to `proxy`. -/
theorem read_body_threshold (g : Globals) (net : Net)
    (body : List (Except Unit (List Nat))) :
    ((∀ c ∈ body, ∃ l, c = .ok l) →
      bodyLen body < MAX_DNS_QUESTION_LEN →
      read_body_and_proxy g net body = proxy g net (bodyBytes body)) ∧
    (MAX_DNS_QUESTION_LEN ≤ bodyLen body →
      read_body_and_proxy g net body = (.error .TooLarge, []) ∧
        statusOf .TooLarge = 413) := by
  constructor
  · intro hok hlt
    unfold read_body_and_proxy
    rw [read_body_loop_ok body 0 [] hok (by omega)]
    rfl
  · intro hge
    refine ⟨?_, rfl⟩
    unfold read_body_and_proxy
    rw [read_body_loop_too_large body 0 [] (by decide) (by omega)]

/-- C5 witness: a three-byte body stays below the maximum and is handed to
`proxy` unchanged. -/
theorem read_body_threshold_witness :
    read_body_and_proxy
        { path := "/dns-query", disable_post := false, server_address := 7,
          min_ttl := 10, max_ttl := 600, err_ttl := 2,
          setEdns := fun q => q, isRecoverableError := fun _ => false,
          minTtl := fun _ _ _ _ => .ok 60 }
        { bindResult := .ok (), sendResult := .ok (),
          recvResult := .ok (List.replicate 20 1, 7) }
        [.ok [1, 2, 3]]
      = proxy
        { path := "/dns-query", disable_post := false, server_address := 7,
          min_ttl := 10, max_ttl := 600, err_ttl := 2,
          setEdns := fun q => q, isRecoverableError := fun _ => false,
          minTtl := fun _ _ _ _ => .ok 60 }
        { bindResult := .ok (), sendResult := .ok (),
          recvResult := .ok (List.replicate 20 1, 7) }
        (bodyBytes [.ok [1, 2, 3]]) :=
  (read_body_threshold _ _ _).1
    (fun c hc => ⟨[1, 2, 3], List.mem_singleton.mp hc⟩) (by decide)

/-- C3: routing precedence in `DoH::call` — a path different from the
configured one answers 404 whatever the method and headers; on the right
path a method other than GET and POST answers 405; and a POST while POST
is disabled answers 405 whatever the `Content-Type` header holds. -/
theorem call_routing (g : Globals) (req : Request) :
    (req.path ≠ g.path → call g req = .respond 404) ∧
    (req.path = g.path → req.method = .other → call g req = .respond 405) ∧
    (req.path = g.path → req.method = .POST → g.disable_post = true →
      call g req = .respond 405) := by
  refine ⟨?_, ?_, ?_⟩
  · intro h
    simp [call, h]
  · intro hp hm
    simp [call, hp, hm]
  · intro hp hm hd
    simp [call, hp, hm, hd]

/-- C3 witness: a wrong path, an unsupported method, and a disabled POST
with a valid content type, each on a concrete request. -/
theorem call_routing_witness :
    call { path := "/dns-query", disable_post := false, server_address := 7,
           min_ttl := 10, max_ttl := 600, err_ttl := 2,
           setEdns := fun q => q, isRecoverableError := fun _ => false,
           minTtl := fun _ _ _ _ => .ok 60 }
        { method := .GET, path := "/other", query := none,
          contentType := none } = .respond 404 ∧
    call { path := "/dns-query", disable_post := false, server_address := 7,
           min_ttl := 10, max_ttl := 600, err_ttl := 2,
           setEdns := fun q => q, isRecoverableError := fun _ => false,
           minTtl := fun _ _ _ _ => .ok 60 }
        { method := .other, path := "/dns-query", query := none,
          contentType := none } = .respond 405 ∧
    call { path := "/dns-query", disable_post := true, server_address := 7,
           min_ttl := 10, max_ttl := 600, err_ttl := 2,
           setEdns := fun q => q, isRecoverableError := fun _ => false,
           minTtl := fun _ _ _ _ => .ok 60 }
        { method := .POST, path := "/dns-query", query := none,
          contentType := some [116] } = .respond 405 :=
  ⟨(call_routing _ _).1 (by decide),
   (call_routing _ _).2.1 rfl rfl,
   (call_routing _ _).2.2 rfl rfl rfl⟩

/-- C4: content-type validation of an admitted POST — a missing
`Content-Type` answers 406, a value that does not decode to a string
answers 400, a decodable value whose lowercasing differs from
`application/dns-message` answers 415, and a case-insensitive match
proceeds to the body path. -/
theorem call_post_content_type (g : Globals) (req : Request)
    (hpath : req.path = g.path) (hm : req.method = .POST)
    (hd : g.disable_post = false) :
    (req.contentType = none → call g req = .respond 406) ∧
    (∀ bytes, req.contentType = some bytes → headerValueToStr bytes = none →
      call g req = .respond 400) ∧
    (∀ bytes s, req.contentType = some bytes →
      headerValueToStr bytes = some s →
      asciiLower s ≠ "application/dns-message" → call g req = .respond 415) ∧
    (∀ bytes s, req.contentType = some bytes →
      headerValueToStr bytes = some s →
      asciiLower s = "application/dns-message" → call g req = .post) := by
  refine ⟨?_, ?_, ?_, ?_⟩
  · intro hct
    simp [call, hpath, hm, hd, check_content_type, hct]
  · intro bytes hct hdec
    simp [call, hpath, hm, hd, check_content_type, hct, hdec]
  · intro bytes s hct hdec hmm
    simp [call, hpath, hm, hd, check_content_type, hct, hdec, hmm]
  · intro bytes s hct hdec hmatch
    simp [call, hpath, hm, hd, check_content_type, hct, hdec, hmatch]

/-- C4 witness: a missing header answers 406 and `Content-Type:
TEXT/plain` answers 415, on concrete requests. -/
theorem call_post_content_type_witness :
    call { path := "/dns-query", disable_post := false, server_address := 7,
           min_ttl := 10, max_ttl := 600, err_ttl := 2,
           setEdns := fun q => q, isRecoverableError := fun _ => false,
           minTtl := fun _ _ _ _ => .ok 60 }
        { method := .POST, path := "/dns-query", query := none,
          contentType := none } = .respond 406 ∧
    call { path := "/dns-query", disable_post := false, server_address := 7,
           min_ttl := 10, max_ttl := 600, err_ttl := 2,
           setEdns := fun q => q, isRecoverableError := fun _ => false,
           minTtl := fun _ _ _ _ => .ok 60 }
        { method := .POST, path := "/dns-query", query := none,
          contentType := some [84, 69, 88, 84, 47, 112, 108, 97, 105, 110] }
        = .respond 415 :=
  ⟨(call_post_content_type _ _ rfl rfl rfl).1 rfl,
   (call_post_content_type _ _ rfl rfl rfl).2.2.1
     [84, 69, 88, 84, 47, 112, 108, 97, 105, 110]
     (String.mk ([84, 69, 88, 84, 47, 112, 108, 97, 105, 110].map Char.ofNat))
     rfl (by decide) (by decide)⟩

/-- C6 counterexample: for the GET query string `dns=AA=A` the code splits
the pair on every `=` and takes the segment between the first and second,
decoding `AA` to one byte and proceeding to the proxy path — whereas the
claim's reading (value = everything after the first `=`, here `AA=A`)
fails base64url decoding and would require an immediate 400 with no
upstream I/O. -/
theorem call_get_split_counterexample :
    call { path := "/dns-query", disable_post := false, server_address := 7,
           min_ttl := 10, max_ttl := 600, err_ttl := 2,
           setEdns := fun q => q, isRecoverableError := fun _ => false,
           minTtl := fun _ _ _ _ => .ok 60 }
        { method := .GET, path := "/dns-query", query := some "dns=AA=A",
          contentType := none } = .get [0] ∧
    extractQuestionStr "dns=AA=A" = some "AA" ∧
    specQuestionStr "dns=AA=A" = some "AA=A" ∧
    b64urlDecode "AA=A" = none ∧
    b64urlDecode "AA" = some [0] := by
  refine ⟨?_, ?_, ?_, ?_, ?_⟩ <;> decide

/-- C6 (amended): on the configured path, a GET splits the query string on
`&` and each pair on every `=`, taking as value the segment between the
first and second `=`; the value is base64url-decoded without padding, a
missing parameter or a decode failure answers 400 with no upstream I/O,
and a successful decode enters the proxy path with the decoded bytes. -/
theorem call_get_decode (g : Globals) (req : Request)
    (hpath : req.path = g.path) (hm : req.method = .GET) :
    (∀ q, (extractQuestionStr (req.query.getD "")).bind b64urlDecode
        = some q → call g req = .get q) ∧
    ((extractQuestionStr (req.query.getD "")).bind b64urlDecode = none →
      call g req = .respond 400) := by
  constructor
  · intro q hq
    simp [call, hpath, hm, hq]
  · intro hq
    simp [call, hpath, hm, hq]

/-- C6 witness: `dns=AAAA` decodes to three zero bytes and enters the
proxy path; `dns=!` fails to decode and answers 400. -/
theorem call_get_decode_witness :
    call { path := "/dns-query", disable_post := false, server_address := 7,
           min_ttl := 10, max_ttl := 600, err_ttl := 2,
           setEdns := fun q => q, isRecoverableError := fun _ => false,
           minTtl := fun _ _ _ _ => .ok 60 }
        { method := .GET, path := "/dns-query", query := some "dns=AAAA",
          contentType := none } = .get [0, 0, 0] ∧
    call { path := "/dns-query", disable_post := false, server_address := 7,
           min_ttl := 10, max_ttl := 600, err_ttl := 2,
           setEdns := fun q => q, isRecoverableError := fun _ => false,
           minTtl := fun _ _ _ _ => .ok 60 }
        { method := .GET, path := "/dns-query", query := some "dns=!",
          contentType := none } = .respond 400 :=
  ⟨(call_get_decode _ _ rfl rfl).1 [0, 0, 0] (by decide),
   (call_get_decode _ _ rfl rfl).2 (by decide)⟩

/-- Helper: an admitted connection is counted. -/
theorem isAdmitted_le_isCounted (l : List ConnPhase) :
    l.countP isAdmitted ≤ l.countP isCounted :=
  List.countP_mono_left (fun p _ hp => by
    cases p with
    | start => simp [isAdmitted] at hp
    | done => simp [isAdmitted] at hp
    | counted b => rfl)

/-- Helper: one governor step preserves the two-part invariant — the
counter equals the number of counted connections, and the number of
admitted connections never exceeds `max`. -/
theorem govStep_inv (max : Nat) (s t : GovState) (hst : GovStep max s t)
    (h1 : s.counter = countCounted s) (h2 : countAdmitted s ≤ max) :
    t.counter = countCounted t ∧ countAdmitted t ≤ max := by
  have hadm := isAdmitted_le_isCounted
  cases hst with
  | accept c pre post =>
    have hpre := hadm pre
    have hpost := hadm post
    simp [countCounted, countAdmitted, isCounted, isAdmitted] at h1 h2 ⊢
    by_cases hc : c + 1 ≤ max
    · rw [decide_eq_true hc]
      simp [List.countP_cons, isAdmitted, isCounted]
      omega
    · rw [decide_eq_false hc]
      simp [List.countP_cons, isAdmitted, isCounted]
      omega
  | finish c b pre post =>
    have hpre := hadm pre
    have hpost := hadm post
    cases b with
    | true =>
      simp [countCounted, countAdmitted, isCounted, isAdmitted] at h1 h2 ⊢
      omega
    | false =>
      simp [countCounted, countAdmitted, isCounted, isAdmitted] at h1 h2 ⊢
      omega

/-- C9: in every reachable governor state, the counter equals the number
of connections that have performed their increment but not yet their
single decrement (so each connection increments once and decrements once),
the number of concurrently admitted connections never exceeds
`max_clients`, and once every connection has closed the counter is back
to 0. -/
theorem governor_counter_invariant (max n : Nat) (s : GovState)
    (h : GovReach max n s) :
    s.counter = countCounted s ∧ countAdmitted s ≤ max ∧
      ((∀ p ∈ s.conns, p = ConnPhase.done) → s.counter = 0) := by
  have h' : Relation.ReflTransGen (GovStep max) (govInit n) s := h
  clear h
  have main : s.counter = countCounted s ∧ countAdmitted s ≤ max := by
    induction h' with
    | refl =>
      constructor
      · simp [govInit, countCounted, List.countP_replicate, isCounted]
      · simp [govInit, countAdmitted, List.countP_replicate, isAdmitted]
    | tail hsteps hstep ih =>
      exact govStep_inv max _ _ hstep ih.1 ih.2
  refine ⟨main.1, main.2, ?_⟩
  intro hall
  have hzero : countCounted s = 0 := by
    apply List.countP_eq_zero.mpr
    intro a ha
    rw [hall a ha]
    simp [isCounted]
  rw [main.1, hzero]

/-- C9 witness: one connection against `max_clients = 1` — accepted,
admitted, finished — ends with the counter at 0. -/
theorem governor_counter_invariant_witness :
    (({ counter := 0, conns := [ConnPhase.done] } : GovState).counter =
        countCounted { counter := 0, conns := [ConnPhase.done] }) ∧
      countAdmitted { counter := 0, conns := [ConnPhase.done] } ≤ 1 ∧
      ((∀ p ∈ ({ counter := 0, conns := [ConnPhase.done] } :
          GovState).conns, p = ConnPhase.done) →
        ({ counter := 0, conns := [ConnPhase.done] } :
          GovState).counter = 0) := by
  have step1 : GovStep 1 (govInit 1)
      { counter := 1, conns := [ConnPhase.counted true] } :=
    GovStep.accept 0 [] []
  have step2 : GovStep 1 { counter := 1, conns := [ConnPhase.counted true] }
      { counter := 0, conns := [ConnPhase.done] } :=
    GovStep.finish 1 true [] []
  exact governor_counter_invariant 1 1 _
    (Relation.ReflTransGen.tail
      (Relation.ReflTransGen.tail Relation.ReflTransGen.refl step1) step2)
